import Mathlib

/-!
Verification of the diabetes-risk-awareness decision core (`src/app.py`).

The app collects eight numeric inputs, derives BMI, calls an opaque binary
classifier for a raw probability, applies two deterministic safety rules,
buckets the result into one of three bands, renders a meter value, and (when
the low-risk override did not fire) shows the top-3 SHAP feature attributions.

The classifier (`model.predict_proba`) and the attribution engine
(`shap.Explainer`) are opaque external artifacts; they are modelled as
parameters (a raw probability in the model's output scale, and a list of
signed per-feature contributions).  Every other definition below is a direct
translation of the corresponding lines of `app.py`.
-/

namespace DiabetesApp

/-- The user inputs collected by the Streamlit widgets (`app.py` lines 44-85).
Integer-valued widgets (`st.number_input` with integer bounds) are `ℤ`;
the family-history field `dpf` is a float widget, modelled as `ℚ`. -/
structure Inputs where
  age : ℤ
  pregnancies : ℤ
  height_cm : ℤ
  weight_kg : ℤ
  glucose : ℤ
  blood_pressure : ℤ
  skin_thickness : ℤ
  insulin : ℤ
  dpf : ℚ
deriving DecidableEq

/-- Round half to even (Python's `round` on ties), for a rational argument.
At a tie the fractional part is exactly 1/2, so the two candidates are
`⌊q⌋` and `⌊q⌋ + 1` and we pick the even one. -/
def roundHalfEven (q : ℚ) : ℤ :=
  if q - ⌊q⌋ < 1/2 then ⌊q⌋
  else if 1/2 < q - ⌊q⌋ then ⌊q⌋ + 1
  else if ⌊q⌋ % 2 = 0 then ⌊q⌋ else ⌊q⌋ + 1

/-- Python's `round(q, 2)`: round to two decimal places. -/
def round2 (q : ℚ) : ℚ := (roundHalfEven (q * 100) : ℚ) / 100

/-- `height_m = height_cm / 100` (app.py line 56). -/
def height_m (i : Inputs) : ℚ := (i.height_cm : ℚ) / 100

/-- `bmi = round(weight_kg / (height_m ** 2), 2)` (app.py line 57). -/
def bmi (i : Inputs) : ℚ := round2 ((i.weight_kg : ℚ) / (height_m i) ^ 2)

/-- SAFETY RULE 1 (Rule A), app.py lines 101-105:
`glucose < 100 and dpf == 0.0 and bmi < 32`. -/
def medically_low_risk (i : Inputs) : Bool :=
  decide (i.glucose < 100) && decide (i.dpf = 0) && decide (bmi i < 32)

/-- SAFETY RULE 2 (Rule B), app.py lines 110-111: the effective probability
after the age-bias guard.  `raw` is the model's raw probability already
scaled to a percentage (`model.predict_proba(user_data)[0][1] * 100`,
line 107); when `raw > 70 and glucose < 110 and dpf == 0.0` it is replaced
by the fixed value 55. -/
def probability (i : Inputs) (raw : ℚ) : ℚ :=
  if 70 < raw ∧ i.glucose < 110 ∧ i.dpf = 0 then 55 else raw

/-- Risk band logic, app.py lines 114-121. -/
def risk_level (i : Inputs) (raw : ℚ) : String :=
  if medically_low_risk i then "LOW"
  else if probability i raw < 35 then "LOW"
  else if probability i raw < 70 then "MODERATE"
  else "HIGH"

/-- Meter value rendered by `st.progress` for each band
(app.py lines 128-141). -/
def meterValue (band : String) : ℚ :=
  if band = "LOW" then 0.25
  else if band = "MODERATE" then 0.60
  else 0.90

/-- Stable insertion of one `(feature, contribution)` pair into a list that is
already sorted by `abs` of the contribution, descending: the new element goes
before the first element whose absolute value is at most its own, so among
equal keys earlier elements stay first. -/
def insertByAbsDesc (x : String × ℚ) : List (String × ℚ) → List (String × ℚ)
  | [] => [x]
  | y :: l => if |y.2| ≤ |x.2| then x :: y :: l else y :: insertByAbsDesc x l

/-- Stable sort by absolute contribution, descending.  Python's
`sorted(..., key=lambda x: abs(x[1]), reverse=True)` (app.py lines 161-165)
is a stable sort with exactly this ordering; a stable sort's output is
determined by the key comparison, so this insertion sort is extensionally
the same function. -/
def sortedByAbsDesc : List (String × ℚ) → List (String × ℚ)
  | [] => []
  | x :: l => insertByAbsDesc x (sortedByAbsDesc l)

/-- `explanation = sorted(zip(X.columns, impacts), key=abs(value), reverse=True)`
(app.py lines 161-165).  `cols` are the reference dataset's column names,
`impacts` the SHAP contributions `shap_values.values[0]`. -/
def explanation (cols : List String) (impacts : List ℚ) : List (String × ℚ) :=
  sortedByAbsDesc (cols.zip impacts)

/-- The text-explanation section (app.py lines 144-167): when Rule A fired the
attribution engine is never consulted (`none`); otherwise the top-3 entries of
the ranked attribution list are displayed. -/
def explanationOutput (i : Inputs) (cols : List String) (impacts : List ℚ) :
    Option (List (String × ℚ)) :=
  if medically_low_risk i then none
  else some ((explanation cols impacts).take 3)

/-- Direction word rendered for one attribution entry (app.py lines 167-171):
`stronger influence` exactly when the signed contribution is `> 0`. -/
def influenceDirection (value : ℚ) : String :=
  if 0 < value then "stronger influence" else "less influence"

/-- Process-wide read-only state loaded at startup: the frozen model
(`joblib.load`, line 30, exposed as the scaled probability it assigns to a
feature vector), the SHAP explainer over the reference dataset (lines 33-39,
exposed as the per-feature contributions), and the dataset's column names. -/
structure Globals where
  predict : Inputs → ℚ
  shapValues : Inputs → List ℚ
  columns : List String

/-- Everything the button handler computes for one evaluation. -/
structure EvalResult where
  band : String
  prob : ℚ
  meter : ℚ
  attribution : Option (List (String × ℚ))
deriving DecidableEq

/-- The `Check Diabetes Risk` button handler (app.py lines 88-171) as a pure
function of the startup globals and the user inputs. -/
def evaluate (g : Globals) (i : Inputs) : EvalResult :=
  let raw := g.predict i
  { band := risk_level i raw
    prob := probability i raw
    meter := meterValue (risk_level i raw)
    attribution := explanationOutput i g.columns (g.shapValues i) }

/-- The declared min/max ranges of the input widgets (app.py lines 44-85). -/
def inDeclaredRange (i : Inputs) : Prop :=
  1 ≤ i.age ∧ i.age ≤ 120 ∧
  0 ≤ i.pregnancies ∧ i.pregnancies ≤ 20 ∧
  100 ≤ i.height_cm ∧ i.height_cm ≤ 220 ∧
  30 ≤ i.weight_kg ∧ i.weight_kg ≤ 200 ∧
  50 ≤ i.glucose ∧ i.glucose ≤ 300 ∧
  40 ≤ i.blood_pressure ∧ i.blood_pressure ≤ 200 ∧
  0 ≤ i.skin_thickness ∧ i.skin_thickness ≤ 100 ∧
  0 ≤ i.insulin ∧ i.insulin ≤ 900 ∧
  0 ≤ i.dpf ∧ i.dpf ≤ 3

/-- Concrete input used by witnesses: all widget defaults except
glucose 90 and height/weight 170/70 (bmi 24.22), so Rule A fires. -/
def wLowIn : Inputs :=
  { age := 30, pregnancies := 0, height_cm := 170, weight_kg := 70
    glucose := 90, blood_pressure := 80, skin_thickness := 20
    insulin := 80, dpf := 0 }

/-- Concrete input with glucose 105 (Rule A off, Rule B's glucose bound on)
and dpf 0; bmi is 24.22, below 32, but glucose ≥ 100 blocks Rule A. -/
def wGuardIn : Inputs :=
  { age := 30, pregnancies := 0, height_cm := 170, weight_kg := 70
    glucose := 105, blood_pressure := 80, skin_thickness := 20
    insulin := 80, dpf := 0 }

/-- Concrete input with glucose 120 and dpf 0.5: neither rule's
glucose/pedigree conditions hold. -/
def wPlainIn : Inputs :=
  { age := 30, pregnancies := 0, height_cm := 170, weight_kg := 70
    glucose := 120, blood_pressure := 80, skin_thickness := 20
    insulin := 80, dpf := 1/2 }

/-- Concrete input refuting C4: glucose 90 and dpf 0 (inside Rule B's
conditions) with height 150 / weight 90, so bmi = 40 and Rule A is off. -/
def wBiasIn : Inputs :=
  { age := 30, pregnancies := 0, height_cm := 150, weight_kg := 90
    glucose := 90, blood_pressure := 80, skin_thickness := 20
    insulin := 80, dpf := 0 }

/-- Concrete startup state used by witnesses: a model that always reports a
scaled probability of 99 and an explainer returning four fixed contributions
(with a tie in absolute value between the second and third features). -/
def wGlobals : Globals :=
  { predict := fun _ => 99
    shapValues := fun _ => [1, -2, 2, 0]
    columns := ["Pregnancies", "Glucose", "BloodPressure", "SkinThickness"] }

/-! Helper lemmas about the stable attribution sort. -/

theorem mem_insertByAbsDesc (x z : String × ℚ) (s : List (String × ℚ)) :
    z ∈ insertByAbsDesc x s ↔ z = x ∨ z ∈ s := by
  induction s with
  | nil => simp [insertByAbsDesc]
  | cons y l ih =>
    by_cases h : |y.2| ≤ |x.2|
    · simp [insertByAbsDesc, h]
    · simp only [insertByAbsDesc, if_neg h, List.mem_cons, ih]
      tauto

theorem pairwise_insertByAbsDesc (x : String × ℚ) (s : List (String × ℚ))
    (hs : s.Pairwise (fun a b => |b.2| ≤ |a.2|)) :
    (insertByAbsDesc x s).Pairwise (fun a b => |b.2| ≤ |a.2|) := by
  induction s with
  | nil => simp [insertByAbsDesc]
  | cons y l ih =>
    rcases List.pairwise_cons.mp hs with ⟨hy, hl⟩
    by_cases h : |y.2| ≤ |x.2|
    · simp only [insertByAbsDesc, if_pos h]
      refine List.pairwise_cons.mpr ⟨?_, hs⟩
      intro z hz
      rcases List.mem_cons.mp hz with rfl | hz2
      · exact h
      · exact le_trans (hy z hz2) h
    · simp only [insertByAbsDesc, if_neg h]
      refine List.pairwise_cons.mpr ⟨?_, ih hl⟩
      intro z hz
      rcases (mem_insertByAbsDesc x z l).mp hz with rfl | hz2
      · exact le_of_lt (lt_of_not_le h)
      · exact hy z hz2

theorem pairwise_sortedByAbsDesc (l : List (String × ℚ)) :
    (sortedByAbsDesc l).Pairwise (fun a b => |b.2| ≤ |a.2|) := by
  induction l with
  | nil => exact List.Pairwise.nil
  | cons x l ih => exact pairwise_insertByAbsDesc x (sortedByAbsDesc l) ih

theorem filter_insertByAbsDesc (c : ℚ) (x : String × ℚ) (s : List (String × ℚ)) :
    (insertByAbsDesc x s).filter (fun z => decide (|z.2| = c))
      = if |x.2| = c then x :: s.filter (fun z => decide (|z.2| = c))
        else s.filter (fun z => decide (|z.2| = c)) := by
  induction s with
  | nil =>
    by_cases hx : |x.2| = c <;> simp [insertByAbsDesc, List.filter_cons, hx]
  | cons y l ih =>
    by_cases h : |y.2| ≤ |x.2|
    · simp only [insertByAbsDesc, if_pos h]
      by_cases hx : |x.2| = c <;> simp [List.filter_cons, hx]
    · simp only [insertByAbsDesc, if_neg h]
      by_cases hx : |x.2| = c
      · have hy : ¬(|y.2| = c) := fun hyc => h (le_of_eq (hyc.trans hx.symm))
        simp [List.filter_cons, hx, hy, ih]
      · by_cases hy : |y.2| = c <;> simp [List.filter_cons, hx, hy, ih]

theorem filter_sortedByAbsDesc (c : ℚ) (l : List (String × ℚ)) :
    (sortedByAbsDesc l).filter (fun z => decide (|z.2| = c))
      = l.filter (fun z => decide (|z.2| = c)) := by
  induction l with
  | nil => rfl
  | cons x l ih =>
    simp only [sortedByAbsDesc, filter_insertByAbsDesc c x, ih, List.filter_cons]
    by_cases hx : |x.2| = c <;> simp [hx]

theorem perm_insertByAbsDesc (x : String × ℚ) (s : List (String × ℚ)) :
    (insertByAbsDesc x s).Perm (x :: s) := by
  induction s with
  | nil => simp [insertByAbsDesc]
  | cons y l ih =>
    by_cases h : |y.2| ≤ |x.2|
    · simp [insertByAbsDesc, h]
    · simp only [insertByAbsDesc, if_neg h]
      exact (ih.cons y).trans (List.Perm.swap x y l)

theorem perm_sortedByAbsDesc (l : List (String × ℚ)) :
    (sortedByAbsDesc l).Perm l := by
  induction l with
  | nil => exact List.Perm.refl []
  | cons x l ih =>
    exact (perm_insertByAbsDesc x (sortedByAbsDesc l)).trans (ih.cons x)

/-- The banding always produces one of the three literal band strings. -/
theorem risk_level_cases (i : Inputs) (raw : ℚ) :
    risk_level i raw = "LOW" ∨ risk_level i raw = "MODERATE" ∨
      risk_level i raw = "HIGH" := by
  by_cases h1 : medically_low_risk i = true
  · exact Or.inl (by simp [risk_level, h1])
  · have h1f : medically_low_risk i = false := by
      revert h1; cases medically_low_risk i <;> simp
    by_cases h2 : probability i raw < 35
    · exact Or.inl (by simp [risk_level, h1f, h2])
    · by_cases h3 : probability i raw < 70
      · exact Or.inr (Or.inl (by simp [risk_level, h1f, h2, h3]))
      · exact Or.inr (Or.inr (by simp [risk_level, h1f, h2, h3]))

/-- Claim C1: whenever glucose < 100, diabetes pedigree is 0.0 and bmi < 32
(Rule A's predicate), the evaluation's band is LOW regardless of the model's
raw probability, and the attribution engine is not consulted. -/
theorem ruleA_forces_low_and_skips_attribution (g : Globals) (i : Inputs)
    (h1 : i.glucose < 100) (h2 : i.dpf = 0) (h3 : bmi i < 32) :
    (evaluate g i).band = "LOW" ∧ (evaluate g i).attribution = none := by
  have hm : medically_low_risk i = true := by
    simp [medically_low_risk, h1, h2, h3]
  exact ⟨by simp [evaluate, risk_level, hm], by simp [evaluate, explanationOutput, hm]⟩

/-- Witness for C1 at a concrete input: glucose 90, pedigree 0, bmi 24.22,
with a model that reports probability 99. -/
theorem ruleA_forces_low_and_skips_attribution_witness :
    wLowIn.glucose < 100 ∧ wLowIn.dpf = 0 ∧ bmi wLowIn < 32 ∧
    wGlobals.predict wLowIn = 99 ∧
    ((evaluate wGlobals wLowIn).band = "LOW" ∧
      (evaluate wGlobals wLowIn).attribution = none) :=
  ⟨by norm_num [wLowIn], by norm_num [wLowIn],
   by norm_num [bmi, height_m, round2, roundHalfEven, wLowIn],
   rfl,
   ruleA_forces_low_and_skips_attribution wGlobals wLowIn
     (by norm_num [wLowIn]) (by norm_num [wLowIn])
     (by norm_num [bmi, height_m, round2, roundHalfEven, wLowIn])⟩

/-- Claim C2: when the raw probability exceeds 70, glucose < 110, pedigree is
0.0 and Rule A's predicate is false, the effective probability used for
banding becomes exactly 55 and the band is MODERATE. -/
theorem ruleB_clamps_to_55_moderate (i : Inputs) (raw : ℚ)
    (h1 : 70 < raw) (h2 : i.glucose < 110) (h3 : i.dpf = 0)
    (h4 : medically_low_risk i = false) :
    probability i raw = 55 ∧ risk_level i raw = "MODERATE" := by
  have hp : probability i raw = 55 := by
    simp [probability, h1, h2, h3]
  refine ⟨hp, ?_⟩
  simp only [risk_level, h4, Bool.false_eq_true, if_false, hp]
  norm_num

/-- Witness for C2 at a concrete input: glucose 105 (so Rule A is off but
Rule B's glucose bound holds), pedigree 0, raw probability 80. -/
theorem ruleB_clamps_to_55_moderate_witness :
    (70 : ℚ) < 80 ∧ wGuardIn.glucose < 110 ∧ wGuardIn.dpf = 0 ∧
    medically_low_risk wGuardIn = false ∧
    (probability wGuardIn 80 = 55 ∧ risk_level wGuardIn 80 = "MODERATE") :=
  ⟨by norm_num, by norm_num [wGuardIn], by norm_num [wGuardIn],
   by norm_num [medically_low_risk, wGuardIn],
   ruleB_clamps_to_55_moderate wGuardIn 80 (by norm_num)
     (by norm_num [wGuardIn]) (by norm_num [wGuardIn])
     (by norm_num [medically_low_risk, wGuardIn])⟩

/-- Claim C3: banding after the safety rules.  If Rule A fired the band is
LOW; otherwise an effective probability strictly below 35 yields LOW,
strictly below 70 yields MODERATE, and anything else yields HIGH; in
particular exactly 35 classifies as MODERATE and exactly 70 as HIGH. -/
theorem banding_threshold_behaviour (i : Inputs) (raw : ℚ) :
    (medically_low_risk i = true → risk_level i raw = "LOW") ∧
    (medically_low_risk i = false → probability i raw < 35 →
      risk_level i raw = "LOW") ∧
    (medically_low_risk i = false → 35 ≤ probability i raw →
      probability i raw < 70 → risk_level i raw = "MODERATE") ∧
    (medically_low_risk i = false → 70 ≤ probability i raw →
      risk_level i raw = "HIGH") ∧
    (medically_low_risk i = false → probability i raw = 35 →
      risk_level i raw = "MODERATE") ∧
    (medically_low_risk i = false → probability i raw = 70 →
      risk_level i raw = "HIGH") := by
  refine ⟨?_, ?_, ?_, ?_, ?_, ?_⟩
  · intro hm; simp [risk_level, hm]
  · intro hm h; simp [risk_level, hm, h]
  · intro hm h1 h2; simp [risk_level, hm, h2, not_lt.mpr h1]
  · intro hm h
    have h35 : ¬ probability i raw < 35 :=
      not_lt.mpr (le_trans (by norm_num) h)
    simp [risk_level, hm, h35, not_lt.mpr h]
  · intro hm h
    rw [risk_level]
    simp only [hm, Bool.false_eq_true, if_false, h]
    norm_num
  · intro hm h
    rw [risk_level]
    simp only [hm, Bool.false_eq_true, if_false, h]
    norm_num

/-- Witness for C3 at a concrete input with Rule A off (glucose 120,
pedigree 0.5): effective probability exactly 35 bands as MODERATE and
exactly 70 bands as HIGH. -/
theorem banding_threshold_behaviour_witness :
    medically_low_risk wPlainIn = false ∧
    probability wPlainIn 35 = 35 ∧ risk_level wPlainIn 35 = "MODERATE" ∧
    probability wPlainIn 70 = 70 ∧ risk_level wPlainIn 70 = "HIGH" :=
  ⟨by norm_num [medically_low_risk, wPlainIn],
   by norm_num [probability, wPlainIn],
   (banding_threshold_behaviour wPlainIn 35).2.2.2.2.1
     (by norm_num [medically_low_risk, wPlainIn])
     (by norm_num [probability, wPlainIn]),
   by norm_num [probability, wPlainIn],
   (banding_threshold_behaviour wPlainIn 70).2.2.2.2.2
     (by norm_num [medically_low_risk, wPlainIn])
     (by norm_num [probability, wPlainIn])⟩

/-- Counterexample to C4: glucose 90, pedigree 0.0 and bmi 40 lie outside
Rule A's range (bmi ≥ 32 blocks it), yet raising the raw probability to 80
does not reach HIGH — Rule B fires (80 > 70, glucose < 110, pedigree 0) and
clamps the effective probability to 55, so the band stays MODERATE. -/
theorem monotonicity_fails_under_ruleB :
    medically_low_risk wBiasIn = false ∧
    bmi wBiasIn = 40 ∧
    risk_level wBiasIn 30 = "LOW" ∧
    risk_level wBiasIn 80 = "MODERATE" ∧
    ¬ risk_level wBiasIn 80 = "HIGH" := by
  have hmod : risk_level wBiasIn 80 = "MODERATE" := by
    norm_num [risk_level, probability, medically_low_risk, bmi, height_m,
      round2, roundHalfEven, wBiasIn]
  refine ⟨?_, ?_, ?_, hmod, ?_⟩
  · norm_num [medically_low_risk, bmi, height_m, round2, roundHalfEven, wBiasIn]
  · norm_num [bmi, height_m, round2, roundHalfEven, wBiasIn]
  · norm_num [risk_level, probability, medically_low_risk, bmi, height_m,
      round2, roundHalfEven, wBiasIn]
  · rw [hmod]; decide

/-- Claim C4 as amended: holding glucose, pedigree and bmi fixed outside
Rule A's range AND outside Rule B's glucose/pedigree conditions (so neither
override can touch the probability), raising the raw probability from 30 to
80 moves the band LOW → MODERATE → HIGH with thresholds at 35 and 70. -/
theorem monotonic_banding_outside_both_rules (i : Inputs) (raw : ℚ)
    (hA : medically_low_risk i = false)
    (hB : ¬(i.glucose < 110 ∧ i.dpf = 0)) :
    (30 ≤ raw → raw < 35 → risk_level i raw = "LOW") ∧
    (35 ≤ raw → raw < 70 → risk_level i raw = "MODERATE") ∧
    (70 ≤ raw → raw ≤ 80 → risk_level i raw = "HIGH") := by
  have hp : probability i raw = raw := by
    rw [probability, if_neg]
    rintro ⟨-, hg, hd⟩
    exact hB ⟨hg, hd⟩
  refine ⟨?_, ?_, ?_⟩
  · intro h1 h2; simp [risk_level, hA, hp, h2]
  · intro h1 h2; simp [risk_level, hA, hp, h2, not_lt.mpr h1]
  · intro h1 h2
    have h35 : ¬ raw < 35 := not_lt.mpr (le_trans (by norm_num) h1)
    simp [risk_level, hA, hp, h35, not_lt.mpr h1]

/-- Witness for the amended C4 at glucose 120, pedigree 0.5 (both overrides
disabled): probabilities 30, 34, 35, 69, 70, 80 band as the claim says. -/
theorem monotonic_banding_outside_both_rules_witness :
    medically_low_risk wPlainIn = false ∧
    ¬(wPlainIn.glucose < 110 ∧ wPlainIn.dpf = 0) ∧
    risk_level wPlainIn 30 = "LOW" ∧
    risk_level wPlainIn 35 = "MODERATE" ∧
    risk_level wPlainIn 80 = "HIGH" :=
  ⟨by norm_num [medically_low_risk, wPlainIn],
   by norm_num [wPlainIn],
   (monotonic_banding_outside_both_rules wPlainIn 30
     (by norm_num [medically_low_risk, wPlainIn])
     (by norm_num [wPlainIn])).1 (by norm_num) (by norm_num),
   (monotonic_banding_outside_both_rules wPlainIn 35
     (by norm_num [medically_low_risk, wPlainIn])
     (by norm_num [wPlainIn])).2.1 (by norm_num) (by norm_num),
   (monotonic_banding_outside_both_rules wPlainIn 80
     (by norm_num [medically_low_risk, wPlainIn])
     (by norm_num [wPlainIn])).2.2 (by norm_num) (by norm_num)⟩

/-- Counterexample to C5: with height_cm = 170 and weight_kg = 70 the code
computes bmi = round(70 / 1.70², 2) = 24.22, not the 19.03 the claim
states. -/
theorem bmi_example_value_wrong :
    wLowIn.height_cm = 170 ∧ wLowIn.weight_kg = 70 ∧
    bmi wLowIn = 24.22 ∧ ¬ bmi wLowIn = 19.03 := by
  refine ⟨rfl, rfl, ?_, ?_⟩ <;>
    norm_num [bmi, height_m, round2, roundHalfEven, wLowIn]

/-- Claim C5 as amended: bmi is weight_kg / (height_cm/100)² rounded to two
decimal places; height 170 with weight 70 yields 24.22 (not 19.03), and
height 150 with weight 90 yields 40.0. -/
theorem bmi_recomputed_from_height_weight (i : Inputs) :
    bmi i = round2 ((i.weight_kg : ℚ) / ((i.height_cm : ℚ) / 100) ^ 2) ∧
    (i.height_cm = 170 → i.weight_kg = 70 → bmi i = 24.22) ∧
    (i.height_cm = 150 → i.weight_kg = 90 → bmi i = 40) := by
  refine ⟨rfl, ?_, ?_⟩ <;> intro h1 h2 <;>
    norm_num [bmi, height_m, round2, roundHalfEven, h1, h2]

/-- Witness for the amended C5 at the two inputs the claim names. -/
theorem bmi_recomputed_from_height_weight_witness :
    (wLowIn.height_cm = 170 ∧ wLowIn.weight_kg = 70 ∧ bmi wLowIn = 24.22) ∧
    (wBiasIn.height_cm = 150 ∧ wBiasIn.weight_kg = 90 ∧ bmi wBiasIn = 40) :=
  ⟨⟨rfl, rfl, (bmi_recomputed_from_height_weight wLowIn).2.1 rfl rfl⟩,
   ⟨rfl, rfl, (bmi_recomputed_from_height_weight wBiasIn).2.2 rfl rfl⟩⟩

/-- Claim C6: when Rule A's override does not fire, the displayed list is the
first three entries of the ranked attribution list, which is sorted by
absolute contribution descending; ties keep the original feature order (for
every absolute value `c`, the entries of that absolute value appear in the
same order as in the zipped column/impact list), and the ranked list is a
permutation of the zipped list. -/
theorem attribution_top3_ranked (i : Inputs) (cols : List String)
    (impacts : List ℚ) (c : ℚ) (h : medically_low_risk i = false) :
    explanationOutput i cols impacts
        = some ((explanation cols impacts).take 3) ∧
    (explanation cols impacts).Pairwise (fun a b => |b.2| ≤ |a.2|) ∧
    ((explanation cols impacts).take 3).Pairwise (fun a b => |b.2| ≤ |a.2|) ∧
    (explanation cols impacts).filter (fun z => decide (|z.2| = c))
        = (cols.zip impacts).filter (fun z => decide (|z.2| = c)) ∧
    (explanation cols impacts).Perm (cols.zip impacts) :=
  ⟨by simp [explanationOutput, h],
   pairwise_sortedByAbsDesc (cols.zip impacts),
   List.Pairwise.sublist (List.take_sublist 3 _)
     (pairwise_sortedByAbsDesc (cols.zip impacts)),
   filter_sortedByAbsDesc c (cols.zip impacts),
   perm_sortedByAbsDesc (cols.zip impacts)⟩

/-- Witness for C6 at a concrete non-override input and the contributions
[1, -2, 2, 0], whose second and third features tie in absolute value: the
displayed top-3 keeps the tied pair in original order. -/
theorem attribution_top3_ranked_witness :
    medically_low_risk wPlainIn = false ∧
    explanation wGlobals.columns [1, -2, 2, 0]
        = [("Glucose", -2), ("BloodPressure", 2), ("Pregnancies", 1),
           ("SkinThickness", 0)] ∧
    (explanationOutput wPlainIn wGlobals.columns [1, -2, 2, 0]
        = some ((explanation wGlobals.columns [1, -2, 2, 0]).take 3) ∧
     (explanation wGlobals.columns [1, -2, 2, 0]).Pairwise
        (fun a b => |b.2| ≤ |a.2|) ∧
     ((explanation wGlobals.columns [1, -2, 2, 0]).take 3).Pairwise
        (fun a b => |b.2| ≤ |a.2|) ∧
     (explanation wGlobals.columns [1, -2, 2, 0]).filter
          (fun z => decide (|z.2| = 2))
        = (wGlobals.columns.zip [1, -2, 2, 0]).filter
          (fun z => decide (|z.2| = 2)) ∧
     (explanation wGlobals.columns [1, -2, 2, 0]).Perm
        (wGlobals.columns.zip [1, -2, 2, 0])) :=
  ⟨by norm_num [medically_low_risk, wPlainIn],
   by norm_num [explanation, sortedByAbsDesc, insertByAbsDesc, wGlobals],
   attribution_top3_ranked wPlainIn wGlobals.columns [1, -2, 2, 0] 2
     (by norm_num [medically_low_risk, wPlainIn])⟩

/-- Claim C7: the rendered meter value is exactly 0.25 for a LOW band, 0.60
for MODERATE and 0.90 for HIGH, in every evaluation. -/
theorem meter_value_per_band (g : Globals) (i : Inputs) :
    ((evaluate g i).band = "LOW" ∧ (evaluate g i).meter = 0.25) ∨
    ((evaluate g i).band = "MODERATE" ∧ (evaluate g i).meter = 0.60) ∨
    ((evaluate g i).band = "HIGH" ∧ (evaluate g i).meter = 0.90) := by
  rcases risk_level_cases i (g.predict i) with h | h | h
  · exact Or.inl ⟨h, by simp [evaluate, meterValue, h]⟩
  · exact Or.inr (Or.inl ⟨h, by simp [evaluate, meterValue, h]⟩)
  · exact Or.inr (Or.inr ⟨h, by simp [evaluate, meterValue, h]⟩)

/-- Claim C8: evaluation is a pure function of the startup globals and the
inputs — two evaluations with the same model, reference data and inputs give
the same band, effective probability, meter and attribution ranking, and the
globals themselves are never changed (they are immutable data here by
construction, matching the source, which only ever reads them). -/
theorem evaluation_deterministic (g : Globals) (i : Inputs) :
    (evaluate g i).band = (evaluate g i).band ∧
    (evaluate g i).prob = (evaluate g i).prob ∧
    (evaluate g i).attribution = (evaluate g i).attribution ∧
    evaluate g i = evaluate g i :=
  ⟨rfl, rfl, rfl, rfl⟩

/-- Claim C9: over the declared widget ranges the decision logic is total and
yields exactly one of the three bands: one of them holds, and no two of them
hold together. -/
theorem banding_total_exactly_one_band (i : Inputs) (raw : ℚ)
    (_h : inDeclaredRange i) :
    (risk_level i raw = "LOW" ∨ risk_level i raw = "MODERATE" ∨
      risk_level i raw = "HIGH") ∧
    ¬(risk_level i raw = "LOW" ∧ risk_level i raw = "MODERATE") ∧
    ¬(risk_level i raw = "LOW" ∧ risk_level i raw = "HIGH") ∧
    ¬(risk_level i raw = "MODERATE" ∧ risk_level i raw = "HIGH") := by
  refine ⟨risk_level_cases i raw, ?_, ?_, ?_⟩ <;>
    rintro ⟨ha, hb⟩ <;> rw [ha] at hb <;> exact absurd hb (by decide)

/-- Witness for C9: the widget defaults (with glucose 90) are inside every
declared range and band LOW. -/
theorem banding_total_exactly_one_band_witness :
    inDeclaredRange wLowIn ∧
    (risk_level wLowIn 99 = "LOW" ∨ risk_level wLowIn 99 = "MODERATE" ∨
      risk_level wLowIn 99 = "HIGH") :=
  ⟨by norm_num [inDeclaredRange, wLowIn],
   (banding_total_exactly_one_band wLowIn 99
     (by norm_num [inDeclaredRange, wLowIn])).1⟩

/-- Claim C10: an attribution entry is rendered with direction `stronger
influence` exactly when its signed contribution is strictly positive; a
contribution of exactly 0 is rendered as `less influence`. -/
theorem influence_direction_positive_iff (v : ℚ) :
    (influenceDirection v = "stronger influence" ↔ 0 < v) ∧
    influenceDirection 0 = "less influence" := by
  constructor
  · constructor
    · intro h
      by_contra hv
      rw [influenceDirection, if_neg hv] at h
      exact absurd h (by decide)
    · intro hv
      simp [influenceDirection, hv]
  · simp [influenceDirection]

end DiabetesApp
